import Mathlib

/-!
Verification of the skill-picard channel-mirroring skill.

This file gives a shallow embedding of the code in `picard.py` and
`picard/commands.py` (a Slack-to-Matrix channel mirroring bot) and proves
or refutes the claims of its specification against that embedding.

Python dictionaries are modelled as association lists (`Dict`) with
first-occurrence lookup and in-place update; Python's `dict.update` is a
left fold of single-key updates.  Platform API calls made by the sweep are
modelled by an environment (`ChanEnv`) that says, for each call, whether it
succeeds or raises, and the sweep records the calls it issues as a trace.
-/

/-- Association map with Python dict semantics: `dictGet` finds the first
binding of a key, `dictSet` replaces the binding in place or appends a new
one at the end (Python preserves insertion order). -/
abbrev Dict (α : Type) : Type := List (String × α)

/-- Lookup of a key in a `Dict`, the embedding of `d[k]` / `d.get(k)`. -/
def dictGet {α : Type} : Dict α → String → Option α
  | [], _ => none
  | (k', v) :: rest, k => if k' = k then some v else dictGet rest k

/-- Update of a single key of a `Dict`, the embedding of `d[k] = v`. -/
def dictSet {α : Type} : Dict α → String → α → Dict α
  | [], k, v => [(k, v)]
  | (k', v') :: rest, k, v =>
      if k' = k then (k', v) :: rest else (k', v') :: dictSet rest k v

/-- Embedding of Python `d.update(u)`: fold the updates of `u` into `d` in
order. -/
def dictUpdate {α : Type} (d u : Dict α) : Dict α :=
  u.foldl (fun acc kv => dictSet acc kv.1 kv.2) d

theorem dictGet_dictSet_self {α : Type} (d : Dict α) (k : String) (v : α) :
    dictGet (dictSet d k v) k = some v := by
  induction d with
  | nil => simp [dictGet, dictSet]
  | cons hd tl ih =>
      obtain ⟨k', v'⟩ := hd
      by_cases h : k' = k <;> simp [dictGet, dictSet, h, ih]

theorem dictGet_dictSet_ne {α : Type} (d : Dict α) (k k' : String) (v : α)
    (h : k' ≠ k) : dictGet (dictSet d k v) k' = dictGet d k' := by
  induction d with
  | nil =>
      have hne : ¬ k = k' := fun h' => h h'.symm
      simp [dictGet, dictSet, hne]
  | cons hd tl ih =>
      obtain ⟨k₀, v₀⟩ := hd
      by_cases h0 : k₀ = k
      · subst h0
        have hne : ¬ k₀ = k' := fun h' => h h'.symm
        simp [dictGet, dictSet, hne]
      · simp [dictGet, dictSet, h0, ih]

theorem dictGet_dictSet_isSome {α : Type} (d : Dict α) (k k' : String) (v : α) :
    (dictGet (dictSet d k v) k').isSome ↔ (dictGet d k').isSome ∨ k' = k := by
  by_cases h : k' = k
  · subst h; simp [dictGet_dictSet_self]
  · simp [dictGet_dictSet_ne d k k' v h, h]

theorem dictGet_dictUpdate_isSome {α : Type} (u d : Dict α) (k : String) :
    (dictGet (dictUpdate d u) k).isSome ↔
      (dictGet d k).isSome ∨ k ∈ u.map Prod.fst := by
  induction u generalizing d with
  | nil => simp [dictUpdate]
  | cons hd tl ih =>
      obtain ⟨k', v'⟩ := hd
      have step : dictUpdate d ((k', v') :: tl) = dictUpdate (dictSet d k' v') tl := rfl
      rw [step, ih]
      simp [dictGet_dictSet_isSome, or_assoc, or_comm, or_left_comm]

/-!
Power-level documents and the two merge operations of `picard.py`
(`user_is_room_admin`, lines 212-222, and `room_notifications_pl0`,
lines 225-235).  A Matrix power-level document is a JSON object; the code
touches only the `users` and `notifications` sub-dictionaries, so the
document is split into those two fields plus an `others` field carrying all
remaining keys (of an arbitrary value type `ε`, since the code never looks
at them).  `users` is accessed with `power_levels['users']` (assumed
present), `notifications` with `.get('notifications', {})` (may be absent,
hence `Option`).
-/

structure PowerLevels (ε : Type) where
  users : Dict Int
  notifications : Option (Dict Int)
  others : Dict ε
deriving DecidableEq

/-- Embedding of `user_is_room_admin` (picard.py lines 212-222): read the
user's current level with `.get(mxid, None)`; if it is not exactly 100,
assign 100. -/
def user_is_room_admin {ε : Type} (power_levels : PowerLevels ε) (mxid : String) :
    PowerLevels ε :=
  let user_pl := dictGet power_levels.users mxid
  if user_pl ≠ some 100 then
    { power_levels with users := dictSet power_levels.users mxid 100 }
  else
    power_levels

/-- Embedding of `room_notifications_pl0` (picard.py lines 225-235):
`notifications = power_levels.get('notifications', {})`, then
`notifications['room'] = 0`, then store the sub-dictionary back. -/
def room_notifications_pl0 {ε : Type} (power_levels : PowerLevels ε) :
    PowerLevels ε :=
  let notifications := power_levels.notifications.getD []
  { power_levels with notifications := some (dictSet notifications "room" 0) }

/-!
Related-groups merge (`update_related_groups`, picard.py lines 295-306):
`existing_communities += communities; new_groups = list(set(existing_communities))`.
Python's `list(set(xs))` produces the elements of `xs` without duplicates in
an unspecified order; it is embedded as `List.dedup` of the concatenation,
which has the same element set and no duplicates.  The claims about this
function only concern the element set.
-/

/-- Embedding of `update_related_groups` (picard.py lines 295-306): the list
written back as the new `m.room.related_groups` content. -/
def update_related_groups (existing_communities communities : List String) :
    List String :=
  (existing_communities ++ communities).dedup

/-- C6: applying `user_is_room_admin` and/or `room_notifications_pl0` to a
power-level document changes only the granted user's entry in `users` and
the `room` entry of `notifications`; every other top-level key and every
other `notifications` entry keeps its binding. -/
theorem power_level_merge_frame {ε : Type} (pl : PowerLevels ε) (mxid k : String) :
    ((user_is_room_admin pl mxid).others = pl.others ∧
      (user_is_room_admin pl mxid).notifications = pl.notifications) ∧
    (k ≠ mxid → dictGet (user_is_room_admin pl mxid).users k = dictGet pl.users k) ∧
    ((room_notifications_pl0 pl).users = pl.users ∧
      (room_notifications_pl0 pl).others = pl.others) ∧
    (k ≠ "room" → dictGet ((room_notifications_pl0 pl).notifications.getD []) k
        = dictGet (pl.notifications.getD []) k) ∧
    (room_notifications_pl0 (user_is_room_admin pl mxid)).others = pl.others := by
  refine ⟨⟨?_, ?_⟩, ?_, ⟨?_, ?_⟩, ?_, ?_⟩
  · by_cases h : dictGet pl.users mxid = some 100 <;> simp [user_is_room_admin, h]
  · by_cases h : dictGet pl.users mxid = some 100 <;> simp [user_is_room_admin, h]
  · intro hk
    by_cases h : dictGet pl.users mxid = some 100
    · simp [user_is_room_admin, h]
    · simp [user_is_room_admin, h, dictGet_dictSet_ne pl.users mxid k 100 hk]
  · rfl
  · rfl
  · intro hk
    show dictGet (dictSet (pl.notifications.getD []) "room" 0) k = _
    exact dictGet_dictSet_ne _ "room" k 0 hk
  · by_cases h : dictGet pl.users mxid = some 100 <;>
      simp [user_is_room_admin, room_notifications_pl0, h]

/-- C6 witness: the frame property evaluated at a concrete document with an
unrelated user entry, an unrelated notification entry and an extra
top-level key. -/
theorem power_level_merge_frame_witness :
    ((user_is_room_admin (⟨[("@u:hs", 5)], some [("x", 1)], [("z", 7)]⟩ : PowerLevels Int) "@a:hs").others
        = [("z", 7)] ∧
      (user_is_room_admin (⟨[("@u:hs", 5)], some [("x", 1)], [("z", 7)]⟩ : PowerLevels Int) "@a:hs").notifications
        = some [("x", 1)]) ∧
    (dictGet (user_is_room_admin (⟨[("@u:hs", 5)], some [("x", 1)], [("z", 7)]⟩ : PowerLevels Int) "@a:hs").users "@u:hs"
        = dictGet [("@u:hs", 5)] "@u:hs") ∧
    ((room_notifications_pl0 (⟨[("@u:hs", 5)], some [("x", 1)], [("z", 7)]⟩ : PowerLevels Int)).users
        = [("@u:hs", 5)] ∧
      (room_notifications_pl0 (⟨[("@u:hs", 5)], some [("x", 1)], [("z", 7)]⟩ : PowerLevels Int)).others
        = [("z", 7)]) ∧
    (dictGet ((room_notifications_pl0 (⟨[("@u:hs", 5)], some [("x", 1)], [("z", 7)]⟩ : PowerLevels Int)).notifications.getD []) "x"
        = dictGet ((⟨[("@u:hs", 5)], some [("x", 1)], [("z", 7)]⟩ : PowerLevels Int).notifications.getD []) "x") ∧
    (room_notifications_pl0 (user_is_room_admin (⟨[("@u:hs", 5)], some [("x", 1)], [("z", 7)]⟩ : PowerLevels Int) "@a:hs")).others
        = [("z", 7)] := by
  have h := power_level_merge_frame (⟨[("@u:hs", 5)], some [("x", 1)], [("z", 7)]⟩ : PowerLevels Int) "@a:hs" "@u:hs"
  have h2 := power_level_merge_frame (⟨[("@u:hs", 5)], some [("x", 1)], [("z", 7)]⟩ : PowerLevels Int) "@a:hs" "x"
  exact ⟨h.1, h.2.1 (by decide), h.2.2.1, h2.2.2.2.1 (by decide), h.2.2.2.2⟩

/-- C7 counterexample: a user whose existing level is 150 (≥ 100) is
lowered to 100 by `user_is_room_admin`, because the code only skips the
assignment when the level is exactly 100. -/
theorem admin_grant_lowers_150 :
    dictGet (PowerLevels.users (⟨[("@alice:example.org", 150)], none, []⟩ : PowerLevels Int)) "@alice:example.org" = some 150 ∧
    (100 : Int) ≤ 150 ∧
    dictGet (user_is_room_admin (⟨[("@alice:example.org", 150)], none, []⟩ : PowerLevels Int) "@alice:example.org").users "@alice:example.org" = some 100 := by
  refine ⟨rfl, by norm_num, rfl⟩

/-- C7 amended: `user_is_room_admin` sets the user's level to 100 whenever
the current level is anything other than exactly 100 — including levels
above 100, which are lowered — and leaves the document unchanged exactly
when the level is already 100. -/
theorem admin_grant_sets_level_100 {ε : Type} (pl : PowerLevels ε) (mxid : String) :
    dictGet (user_is_room_admin pl mxid).users mxid = some 100 ∧
    (dictGet pl.users mxid = some 100 → user_is_room_admin pl mxid = pl) := by
  constructor
  · by_cases h : dictGet pl.users mxid = some 100
    · simp [user_is_room_admin, h]
    · simp [user_is_room_admin, h, dictGet_dictSet_self]
  · intro h
    simp [user_is_room_admin, h]

/-- C7 amended witness: at a document where the user already has level 100
the grant is the identity, and the granted level reads back as 100. -/
theorem admin_grant_sets_level_100_witness :
    dictGet (user_is_room_admin (⟨[("@a:hs", 100)], none, []⟩ : PowerLevels Int) "@a:hs").users "@a:hs" = some 100 ∧
    user_is_room_admin (⟨[("@a:hs", 100)], none, []⟩ : PowerLevels Int) "@a:hs" = ⟨[("@a:hs", 100)], none, []⟩ :=
  ⟨(admin_grant_sets_level_100 (⟨[("@a:hs", 100)], none, []⟩ : PowerLevels Int) "@a:hs").1,
   (admin_grant_sets_level_100 (⟨[("@a:hs", 100)], none, []⟩ : PowerLevels Int) "@a:hs").2 rfl⟩

/-- C8: the related-groups list written back by `update_related_groups` is
duplicate-free, its element set is exactly the union of the existing list
and the configured list, the set does not depend on the order in which the
two collections are supplied, and no existing group is dropped. -/
theorem update_related_groups_union (e n : List String) :
    (update_related_groups e n).Nodup ∧
    (update_related_groups e n).toFinset = e.toFinset ∪ n.toFinset ∧
    (update_related_groups e n).toFinset = (update_related_groups n e).toFinset ∧
    (∀ g, g ∈ e → g ∈ update_related_groups e n) := by
  refine ⟨List.nodup_dedup _, ?_, ?_, ?_⟩
  · ext g
    simp [update_related_groups]
  · ext g
    simp [update_related_groups, or_comm]
  · intro g hg
    simp [update_related_groups, hg]

/-- C8 witness: `update_related_groups {A,B} {B,C}` keeps `A` and has the
same element set as `update_related_groups {B,C} {A,B}`. -/
theorem update_related_groups_union_witness :
    "A" ∈ update_related_groups ["A", "B"] ["B", "C"] ∧
    (update_related_groups ["A", "B"] ["B", "C"]).toFinset
      = (update_related_groups ["B", "C"] ["A", "B"]).toFinset :=
  ⟨(update_related_groups_union ["A", "B"] ["B", "C"]).2.2.2 "A" (by decide),
   (update_related_groups_union ["A", "B"] ["B", "C"]).2.2.1⟩

/-!
Room-options command (`room_skip_command`, picard/commands.py lines
191-211).  The handler reads the sender, rejects non-admins, validates the
flag, reads the stored `picard.options` map (or `{}` when absent), writes
`skip_room_<flag>` into it and stores it back.  The embedding returns the
map that ends up in memory, the list of responses sent, and whether a
memory `put` was issued.  Note that the code responds with the validation
error for a bad flag but has no `return` there, so execution falls through
to the map update.
-/

structure SkipOutcome where
  options : Dict Bool
  responses : List String
  putIssued : Bool
deriving DecidableEq

/-- Embedding of `room_skip_command` (picard/commands.py lines 191-211).
Inputs: the configured `users_as_admin` list, the stored `picard.options`
value (`none` when the memory key is absent), the sender, the flag matched
from the command text, and the `skip` boolean (`true` for `!skip`, `false`
for `!unskip`). -/
def room_skip_command (admins : List String) (stored : Option (Dict Bool))
    (sender flag : String) (skip : Bool) : SkipOutcome :=
  if sender ∉ admins then
    ⟨stored.getD [], ["You are not authorised to perform this action."], false⟩
  else
    let errs :=
      if flag ∉ ["name", "description", "avatar"] then
        ["The skip argument must be one of (name, description, avatar), not " ++ flag]
      else []
    let options := stored.getD []
    let options := dictSet options ("skip_room_" ++ flag) skip
    ⟨options, errs ++ ["Your room settings have been updated."], true⟩

/-- C5 code_bug evaluation: an admin issuing `!skip foo` gets the
validation error, yet the handler still writes `skip_room_foo := true`
into the stored options and reports the settings as updated, because the
error branch lacks a `return`. -/
theorem room_skip_command_bad_flag_writes :
    room_skip_command ["@adm:hs"] none "@adm:hs" "foo" true =
      ⟨[("skip_room_foo", true)],
       ["The skip argument must be one of (name, description, avatar), not foo",
        "Your room settings have been updated."], true⟩ := by
  decide

/-!
Auto-invite commands (`on_auto_invite`, picard/commands.py lines 70-82, and
`on_disable_auto_invite`, lines 84-95).  Each reads the stored
`autoinvite_users` list (`or []` when absent), and either responds without
writing, or updates the list and issues a memory `put`.  The embedding
returns the list that is in memory afterwards, whether a `put` was issued,
and the response text.
-/

/-- Embedding of `on_auto_invite` (picard/commands.py lines 70-82). -/
def on_auto_invite (stored : Option (List String)) (sender : String) :
    List String × Bool × String :=
  let users := stored.getD []
  if sender ∈ users then
    (users, false, "You already have autoinvite enabled.")
  else
    (users ++ [sender], true,
     "You will be invited to all future rooms. Use !inviteall to get invites to existing rooms.")

/-- Embedding of `on_disable_auto_invite` (picard/commands.py lines 84-95).
Python's `list.remove` deletes the first occurrence, embedded as
`List.erase`. -/
def on_disable_auto_invite (stored : Option (List String)) (sender : String) :
    List String × Bool × String :=
  let users := stored.getD []
  if sender ∉ users then
    (users, false, "You do not have autoinvite enabled.")
  else
    (users.erase sender, true, "Autoinvite disabled.")

/-- Lists of auto-invite subscribers reachable from an absent or empty
memory value through the two commands. -/
inductive AutoinviteReachable : List String → Prop
  | empty : AutoinviteReachable []
  | enable (l : List String) (s : String) :
      AutoinviteReachable l → AutoinviteReachable (on_auto_invite (some l) s).1
  | disable (l : List String) (s : String) :
      AutoinviteReachable l → AutoinviteReachable (on_disable_auto_invite (some l) s).1

/-- C10: `!autoinvite` issues no memory write and leaves the list unchanged
when the sender is already enrolled, `!autoinvite disable` issues no write
when the sender is not enrolled, and consequently every reachable
`autoinvite_users` list is duplicate-free. -/
theorem autoinvite_users_nodup (l : List String) (s : String) :
    (s ∈ l →
      on_auto_invite (some l) s = (l, false, "You already have autoinvite enabled.")) ∧
    (s ∉ l →
      on_disable_auto_invite (some l) s
        = (l, false, "You do not have autoinvite enabled.")) ∧
    (AutoinviteReachable l → l.Nodup) := by
  refine ⟨fun h => by simp [on_auto_invite, h], fun h => by simp [on_disable_auto_invite, h], ?_⟩
  intro hr
  induction hr with
  | empty => exact List.nodup_nil
  | enable l' s' _ ih =>
      by_cases h : s' ∈ l'
      · simpa [on_auto_invite, h] using ih
      · simp [on_auto_invite, h]
        exact List.Nodup.append ih (List.nodup_singleton s') (by simpa using h)
  | disable l' s' _ ih =>
      by_cases h : s' ∈ l'
      · simp [on_disable_auto_invite, h]
        exact ih.erase s'
      · simpa [on_disable_auto_invite, h] using ih

/-- C10 witness: with `["@a:hs"]` stored, `!autoinvite` from `@a:hs` and
`!autoinvite disable` from `@b:hs` are both no-ops on memory, and the
reachable list `["@a:hs"]` is duplicate-free. -/
theorem autoinvite_users_nodup_witness :
    on_auto_invite (some ["@a:hs"]) "@a:hs"
      = (["@a:hs"], false, "You already have autoinvite enabled.") ∧
    on_disable_auto_invite (some ["@a:hs"]) "@b:hs"
      = (["@a:hs"], false, "You do not have autoinvite enabled.") ∧
    ["@a:hs"].Nodup :=
  ⟨(autoinvite_users_nodup ["@a:hs"] "@a:hs").1 (by decide),
   (autoinvite_users_nodup ["@a:hs"] "@b:hs").2.1 (by decide),
   (autoinvite_users_nodup ["@a:hs"] "@a:hs").2.2
     (by simpa using AutoinviteReachable.enable [] "@a:hs" AutoinviteReachable.empty)⟩

/-!
Channel discovery (`get_new_channels`, picard.py lines 49-70, and
`get_channel_mapping`, lines 39-46).  A Slack channel carries an id, a
name, a topic value (`channel['topic']['value']`) and an archived flag.
`get_channel_mapping` is the dict comprehension `{c['id']: c['name']}`;
`get_new_channels` iterates the channel list, skips archived channels and
channels whose id is a key of `seen_channels`, and records
`(name, alias, topic)` under the channel id, where the alias is
`f"#{prefix}{channel_name}:{server_name}"` and the name is looked up in
`get_channel_mapping` (the code recomputes that mapping from the same
channel list on every iteration). -/

structure SlackChannel where
  id : String
  name : String
  topic_value : String
  is_archived : Bool
deriving DecidableEq

/-- Embedding of `get_channel_mapping` (picard.py lines 39-46): the dict
comprehension mapping channel ids to channel names, later entries
overwriting earlier ones. -/
def get_channel_mapping (channels : List SlackChannel) : Dict String :=
  channels.foldl (fun acc c => dictSet acc c.id c.name) []

/-- The `(channel_name, alias, topic)` triple stored per channel id. -/
abbrev ChanInfo : Type := String × String × String

/-- One iteration of the `get_new_channels` loop (picard.py lines 59-68). -/
def gnc_step (allChannels : List SlackChannel) (aliasPre server_name : String)
    (seen_channels : Dict ChanInfo) (acc : Dict ChanInfo) (c : SlackChannel) :
    Dict ChanInfo :=
  if c.is_archived then acc
  else if (dictGet seen_channels c.id).isSome then acc
  else
    let channel_name := (dictGet (get_channel_mapping allChannels) c.id).getD ""
    let roomAlias := "#" ++ aliasPre ++ channel_name ++ ":" ++ server_name
    dictSet acc c.id (channel_name, roomAlias, c.topic_value)

/-- Embedding of `get_new_channels` (picard.py lines 49-70). -/
def get_new_channels (channels : List SlackChannel) (aliasPre server_name : String)
    (seen_channels : Dict ChanInfo) : Dict ChanInfo :=
  channels.foldl (gnc_step channels aliasPre server_name seen_channels) []

theorem gcm_foldl_not_mem (l : List SlackChannel) (acc : Dict String) (i : String)
    (h : i ∉ l.map SlackChannel.id) :
    dictGet (l.foldl (fun acc c => dictSet acc c.id c.name) acc) i = dictGet acc i := by
  induction l generalizing acc with
  | nil => rfl
  | cons hd tl ih =>
      simp only [List.map_cons, List.mem_cons, not_or] at h
      simp only [List.foldl_cons]
      rw [ih (dictSet acc hd.id hd.name) h.2,
        dictGet_dictSet_ne acc hd.id i hd.name h.1]

theorem gcm_foldl_mem (l : List SlackChannel) (acc : Dict String) (c : SlackChannel)
    (hnodup : (l.map SlackChannel.id).Nodup) (hc : c ∈ l) :
    dictGet (l.foldl (fun acc c => dictSet acc c.id c.name) acc) c.id = some c.name := by
  induction l generalizing acc with
  | nil => cases hc
  | cons hd tl ih =>
      simp only [List.map_cons, List.nodup_cons] at hnodup
      rcases List.mem_cons.mp hc with h | h
      · subst h
        simp only [List.foldl_cons]
        rw [gcm_foldl_not_mem tl (dictSet acc c.id c.name) c.id hnodup.1,
          dictGet_dictSet_self]
      · exact ih (dictSet acc hd.id hd.name) hnodup.2 h

theorem get_channel_mapping_lookup (channels : List SlackChannel) (c : SlackChannel)
    (hnodup : (channels.map SlackChannel.id).Nodup) (hc : c ∈ channels) :
    dictGet (get_channel_mapping channels) c.id = some c.name :=
  gcm_foldl_mem channels [] c hnodup hc

theorem gnc_foldl_not_mem (all l : List SlackChannel) (p s : String)
    (seen : Dict ChanInfo) (acc : Dict ChanInfo) (i : String)
    (h : i ∉ l.map SlackChannel.id) :
    dictGet (l.foldl (gnc_step all p s seen) acc) i = dictGet acc i := by
  induction l generalizing acc with
  | nil => rfl
  | cons hd tl ih =>
      simp only [List.map_cons, List.mem_cons, not_or] at h
      simp only [List.foldl_cons]
      rw [ih _ h.2]
      unfold gnc_step
      split
      · rfl
      · split
        · rfl
        · exact dictGet_dictSet_ne acc hd.id i _ h.1

theorem gnc_foldl_mem (all l : List SlackChannel) (p s : String)
    (seen : Dict ChanInfo) (acc : Dict ChanInfo) (c : SlackChannel)
    (hnodup : (l.map SlackChannel.id).Nodup) (hc : c ∈ l)
    (harch : c.is_archived = false) (hseen : dictGet seen c.id = none) :
    dictGet (l.foldl (gnc_step all p s seen) acc) c.id
      = some ((dictGet (get_channel_mapping all) c.id).getD "",
          "#" ++ p ++ (dictGet (get_channel_mapping all) c.id).getD "" ++ ":" ++ s,
          c.topic_value) := by
  induction l generalizing acc with
  | nil => cases hc
  | cons hd tl ih =>
      simp only [List.map_cons, List.nodup_cons] at hnodup
      rcases List.mem_cons.mp hc with h | h
      · subst h
        simp only [List.foldl_cons]
        rw [gnc_foldl_not_mem all tl p s seen _ c.id hnodup.1]
        unfold gnc_step
        rw [harch, hseen]
        simp [dictGet_dictSet_self]
      · exact ih _ hnodup.2 h

theorem gnc_foldl_isSome (all l : List SlackChannel) (p s : String)
    (seen : Dict ChanInfo) (acc : Dict ChanInfo) (i : String)
    (h : (dictGet (l.foldl (gnc_step all p s seen) acc) i).isSome) :
    (dictGet acc i).isSome ∨
      ∃ c ∈ l, c.id = i ∧ c.is_archived = false ∧ dictGet seen c.id = none := by
  induction l generalizing acc with
  | nil => exact Or.inl h
  | cons hd tl ih =>
      simp only [List.foldl_cons] at h
      rcases ih (gnc_step all p s seen acc hd) h with h' | h'
      · simp only [gnc_step] at h'
        by_cases ha : hd.is_archived = true
        · rw [if_pos ha] at h'
          exact Or.inl h'
        · rw [if_neg ha] at h'
          by_cases hs : (dictGet seen hd.id).isSome = true
          · rw [if_pos hs] at h'
            exact Or.inl h'
          · rw [if_neg hs] at h'
            by_cases hi : i = hd.id
            · subst hi
              refine Or.inr ⟨hd, List.mem_cons_self hd tl, rfl, by simpa using ha, ?_⟩
              exact Option.not_isSome_iff_eq_none.mp (by simpa using hs)
            · rw [dictGet_dictSet_ne acc hd.id i _ hi] at h'
              exact Or.inl h'
      · obtain ⟨c, hc, rest⟩ := h'
        exact Or.inr ⟨c, List.mem_cons_of_mem hd hc, rest⟩

theorem gnc_foldl_stale (all l : List SlackChannel) (p s : String)
    (seen : Dict ChanInfo) (acc : Dict ChanInfo)
    (h : ∀ c ∈ l, c.is_archived = true ∨ (dictGet seen c.id).isSome) :
    l.foldl (gnc_step all p s seen) acc = acc := by
  induction l generalizing acc with
  | nil => rfl
  | cons hd tl ih =>
      simp only [List.foldl_cons]
      have hstep : gnc_step all p s seen acc hd = acc := by
        rcases h hd (List.mem_cons_self hd tl) with h' | h' <;> simp [gnc_step, h']
      rw [hstep]
      exact ih acc (fun c hc => h c (List.mem_cons_of_mem hd hc))

/-- C9: `get_new_channels` returns a map whose keys are exactly the
non-archived channels not yet in the Ledger, each mapped to
`(name, alias, topic)` with the alias built as
`"#" ++ prefix ++ name ++ ":" ++ serverDomain`, and returns the empty map
when nothing is new.  Channel ids are assumed distinct (Slack ids are
unique), which makes the name looked up in `get_channel_mapping` the
channel's own name. -/
theorem get_new_channels_spec (channels : List SlackChannel) (p s : String)
    (seen : Dict ChanInfo) (hnodup : (channels.map SlackChannel.id).Nodup) :
    (∀ c ∈ channels, c.is_archived = false → dictGet seen c.id = none →
      dictGet (get_new_channels channels p s seen) c.id
        = some (c.name, "#" ++ p ++ c.name ++ ":" ++ s, c.topic_value)) ∧
    (∀ i, (dictGet (get_new_channels channels p s seen) i).isSome →
      ∃ c ∈ channels, c.id = i ∧ c.is_archived = false ∧ dictGet seen c.id = none) ∧
    ((∀ c ∈ channels, c.is_archived = true ∨ (dictGet seen c.id).isSome) →
      get_new_channels channels p s seen = []) := by
  refine ⟨?_, ?_, ?_⟩
  · intro c hc harch hseen
    have hmap := get_channel_mapping_lookup channels c hnodup hc
    have hmem := gnc_foldl_mem channels channels p s seen [] c hnodup hc harch hseen
    rw [hmap] at hmem
    simpa [get_new_channels] using hmem
  · intro i hi
    have hsome := gnc_foldl_isSome channels channels p s seen [] i
      (by simpa [get_new_channels] using hi)
    rcases hsome with h' | h'
    · exact absurd h' (by simp [dictGet])
    · exact h'
  · intro hall
    exact gnc_foldl_stale channels channels p s seen [] hall

/-- C9 witness: with prefix `br-`, server domain `example.org`, an empty
Ledger, a live channel `general` and an archived channel `dead`, discovery
maps the live channel's id to the alias `#br-general:example.org`, and a
list holding only the archived channel yields the empty map. -/
theorem get_new_channels_spec_witness :
    dictGet (get_new_channels
        [⟨"C1", "general", "travel talk", false⟩, ⟨"C2", "dead", "", true⟩]
        "br-" "example.org" []) "C1"
      = some ("general", "#br-general:example.org", "travel talk") ∧
    get_new_channels [⟨"C2", "dead", "", true⟩] "br-" "example.org" [] = [] :=
  ⟨(get_new_channels_spec
      [⟨"C1", "general", "travel talk", false⟩, ⟨"C2", "dead", "", true⟩]
      "br-" "example.org" [] (by decide)).1
      ⟨"C1", "general", "travel talk", false⟩ (by decide) rfl rfl,
   (get_new_channels_spec [⟨"C2", "dead", "", true⟩] "br-" "example.org" []
      (by decide)).2.2 (by decide)⟩

/-!
The sweep (`mirror_slack_channels`, picard.py lines 360-487).  The loop
body issues a sequence of platform calls per discovered channel; any of
them can raise.  The embedding takes, per channel, an environment
(`ChanEnv`) saying for each call whether it succeeds or raises, and
records the calls issued as a trace.  Control flow follows the source:

- `join_bot_to_channel`, `intent_self_in_room`, `set_room_name`,
  `set_room_topic` (only when the topic is non-empty), `set_room_avatar`
  (only when `room_avatar_url` is configured), `configure_room_power_levels`,
  `update_related_groups` (only when `related_groups` is configured) and the
  `users_to_invite` / community loops run outside any try/except, so a
  raise there propagates out of the whole sweep (abort, no Ledger write);
- the `make_public` state events sit in a `try/except Exception` that
  responds with an error and continues (`pub` summarises the two calls);
- a failed appservice invite (`intent_user_in_room` returning `None`)
  responds and `continue`s to the next channel (`skipped`);
- after the loop, if any channel was discovered, `seen_channels.update(new_channels)`
  followed by one memory put commits every discovered channel.
-/

inductive StepRes
  | ok
  | raise
deriving DecidableEq

/-- Outcome of the appservice invite (`intent_user_in_room`): the
underlying lookups can raise, the invite can fail (function returns `None`)
or succeed (returns the room id). -/
inductive AsRes
  | raiseEx
  | failed
  | okRes
deriving DecidableEq

structure ChanEnv where
  roomId : String
  joinBot : StepRes
  selfRoom : StepRes
  setName : StepRes
  setTopic : StepRes
  setAvatar : StepRes
  pub : StepRes
  asInvite : AsRes
  powerLevels : StepRes
  relGroups : StepRes
  userInvites : StepRes
  groupOps : StepRes
deriving DecidableEq

/-- Platform calls issued by the sweep and by `intent_self_in_room`. -/
inductive Call
  | joinBotToChannel (channelId : String)
  | resolveSelfRoom (roomAlias : String)
  | setRoomName (roomId roomName : String)
  | setRoomTopic (roomId topic : String)
  | setRoomAvatar (roomId url : String)
  | setJoinRules (roomId : String)
  | setHistoryVisibility (roomId : String)
  | respond (text : String)
  | asInviteUser (roomId userId : String)
  | configurePowerLevels (roomId : String)
  | updateRelatedGroupsCall (roomId : String)
  | linkCommand (channelId roomId : String)
  | inviteUser (roomId userId : String)
  | communityOps (roomId : String)
  | createRoom (localAlias : String)
  | getRoomId (room : String)
  | joinRoom (roomId : String)
deriving DecidableEq

/-- Configuration options read by the sweep.  `roomAliasPre` embeds
`room_alias_prefix` and `roomNamePre` embeds `room_name_prefix`
(`config.get("room_name_prefix", config["room_alias_prefix"])`). -/
structure Config where
  roomAliasPre : String
  server_name : String
  make_public : Bool
  roomNamePre : Option String
  related_groups : List String
  room_avatar_url : Option String
  as_userid : String
  users_to_invite : List String
deriving DecidableEq

/-- The opsdroid memory keys the skill uses: the Ledger (`seen_channels`)
and the per-room options written by the skip command (`picard.options`).
An absent key is the empty dictionary. -/
structure Memory where
  seen_channels : Dict ChanInfo
  picard_options : Dict Bool
deriving DecidableEq

inductive ChanResult
  | completed
  | skipped
  | raised
deriving DecidableEq

/-- Per-channel outcome of one iteration of the sweep loop (picard.py lines
407-479): `raised` when some call outside a try/except raises (the
exception propagates out of the loop), `skipped` when the appservice invite
fails (`continue` at line 443), `completed` otherwise.  The guards follow
the source order; the join-policy block (`pub`) is caught and never raises
out. -/
def processResult (cfg : Config) (community : Option String) (env : ChanEnv)
    (topic : String) : ChanResult :=
  if env.joinBot = StepRes.raise then ChanResult.raised else
  if env.selfRoom = StepRes.raise then ChanResult.raised else
  if env.setName = StepRes.raise then ChanResult.raised else
  if topic ≠ "" ∧ env.setTopic = StepRes.raise then ChanResult.raised else
  if cfg.room_avatar_url.isSome ∧ env.setAvatar = StepRes.raise then ChanResult.raised else
  if env.asInvite = AsRes.raiseEx then ChanResult.raised else
  if env.asInvite = AsRes.failed then ChanResult.skipped else
  if env.powerLevels = StepRes.raise then ChanResult.raised else
  if cfg.related_groups ≠ [] ∧ env.relGroups = StepRes.raise then ChanResult.raised else
  if cfg.users_to_invite ≠ [] ∧ env.userInvites = StepRes.raise then ChanResult.raised else
  if community.isSome ∧ env.groupOps = StepRes.raise then ChanResult.raised else
  ChanResult.completed

/-- Calls issued by the community-membership block and the final
notification (picard.py lines 463-479), reached after the invite loop. -/
def grpCalls (community : Option String) (env : ChanEnv) (room_alias room_id : String) :
    List Call :=
  (if community.isSome then [Call.communityOps room_id] else []) ++
  (if community.isSome ∧ env.groupOps = StepRes.raise then [] else
    [Call.respond ("Finished Adding room " ++ room_alias)])

/-- Calls issued from the link command onwards (picard.py lines 452-461):
the link message, the `users_to_invite` loop, and the tail. -/
def inviteCalls (cfg : Config) (community : Option String) (env : ChanEnv)
    (channel_id room_alias room_id : String) : List Call :=
  [Call.linkCommand channel_id room_id] ++
  cfg.users_to_invite.map (Call.inviteUser room_id) ++
  (if cfg.users_to_invite ≠ [] ∧ env.userInvites = StepRes.raise then [] else
    grpCalls community env room_alias room_id)

/-- Calls issued from the related-groups update onwards (picard.py lines
448-450). -/
def relCalls (cfg : Config) (community : Option String) (env : ChanEnv)
    (channel_id room_alias room_id : String) : List Call :=
  (if cfg.related_groups ≠ [] then [Call.updateRelatedGroupsCall room_id] else []) ++
  (if cfg.related_groups ≠ [] ∧ env.relGroups = StepRes.raise then [] else
    inviteCalls cfg community env channel_id room_alias room_id)

/-- Calls issued from the power-level configuration onwards (picard.py
line 446). -/
def plCalls (cfg : Config) (community : Option String) (env : ChanEnv)
    (channel_id room_alias room_id : String) : List Call :=
  [Call.configurePowerLevels room_id] ++
  (if env.powerLevels = StepRes.raise then [] else
    relCalls cfg community env channel_id room_alias room_id)

/-- Calls issued from the appservice invite onwards (picard.py lines
438-443): a raise stops the iteration, a failed invite responds and
`continue`s, success proceeds to the power-level configuration. -/
def asCalls (cfg : Config) (community : Option String) (env : ChanEnv)
    (channel_id room_alias room_id : String) : List Call :=
  [Call.asInviteUser room_id cfg.as_userid] ++
  (if env.asInvite = AsRes.raiseEx then [] else
   if env.asInvite = AsRes.failed then
     [Call.respond ("ERROR: Could not invite appservice bot" ++ "to " ++ room_alias
       ++ ", skipping channel.")]
   else plCalls cfg community env channel_id room_alias room_id)

/-- Calls issued by the `make_public` block (picard.py lines 425-436): the
two state events, with the failure caught and reported. -/
def pubCalls (cfg : Config) (env : ChanEnv) (room_alias room_id : String) : List Call :=
  if cfg.make_public then
    if env.pub = StepRes.raise then
      [Call.setJoinRules room_id,
       Call.respond ("ERROR: Could not make " ++ room_alias ++ " publically joinable.")]
    else
      [Call.setJoinRules room_id, Call.setHistoryVisibility room_id]
  else []

/-- The avatar call (picard.py lines 421-423), issued exactly when
`room_avatar_url` is configured. -/
def avatarCalls (cfg : Config) (room_id : String) : List Call :=
  match cfg.room_avatar_url with
  | some url => [Call.setRoomAvatar room_id url]
  | none => []

/-- The calls one iteration of the sweep loop issues for a channel, in
source order (picard.py lines 407-479).  Each step's calls follow the
previous step's success guard: a raise there stops the iteration (empty
tail). -/
def processCalls (cfg : Config) (community : Option String) (env : ChanEnv)
    (channel_id : String) (info : ChanInfo) : List Call :=
  let (channel_name, room_alias, topic) := info
  let room_id := env.roomId
  let room_name := (cfg.roomNamePre.getD cfg.roomAliasPre) ++ channel_name
  [Call.joinBotToChannel channel_id] ++
  (if env.joinBot = StepRes.raise then [] else
    [Call.resolveSelfRoom room_alias] ++
    (if env.selfRoom = StepRes.raise then [] else
      [Call.setRoomName room_id room_name] ++
      (if env.setName = StepRes.raise then [] else
        (if topic ≠ "" then [Call.setRoomTopic room_id topic] else []) ++
        (if topic ≠ "" ∧ env.setTopic = StepRes.raise then [] else
          avatarCalls cfg room_id ++
          (if cfg.room_avatar_url.isSome ∧ env.setAvatar = StepRes.raise then [] else
            pubCalls cfg env room_alias room_id ++
            asCalls cfg community env channel_id room_alias room_id)))))

/-- Embedding of one iteration of the sweep loop (picard.py lines 407-479)
for the channel `channel_id` with discovery data `info`: the per-channel
outcome paired with the trace of calls issued. -/
def processChannel (cfg : Config) (community : Option String) (env : ChanEnv)
    (channel_id : String) (info : ChanInfo) : ChanResult × List Call :=
  (processResult cfg community env info.2.2, processCalls cfg community env channel_id info)


structure SweepOut where
  aborted : Bool
  results : Dict ChanResult
  calls : List Call
deriving DecidableEq

/-- Sequential processing of the discovered channels (picard.py line 407):
a raised exception propagates, so it terminates the loop with `aborted`;
`continue` (skipped) and caught failures move on to the next channel. -/
def sweepLoop (cfg : Config) (community : Option String) (envs : String → ChanEnv) :
    List (String × ChanInfo) → SweepOut
  | [] => ⟨false, [], []⟩
  | (cid, info) :: rest =>
      let pr := processChannel cfg community (envs cid) cid info
      if pr.1 = ChanResult.raised then
        ⟨true, [(cid, pr.1)], pr.2⟩
      else
        let out := sweepLoop cfg community envs rest
        ⟨out.aborted, (cid, pr.1) :: out.results, pr.2 ++ out.calls⟩

/-- Embedding of `mirror_slack_channels` (picard.py lines 360-487): read
the Ledger, discover new channels, process them sequentially, and — unless
the loop raised, in which case the exception propagates before line 481 —
commit `seen_channels.update(new_channels)` whenever anything was
discovered. -/
def mirror_slack_channels (cfg : Config) (community : Option String)
    (envs : String → ChanEnv) (channels : List SlackChannel) (mem : Memory) :
    Memory × SweepOut :=
  let seen_channels := mem.seen_channels
  let new_channels := get_new_channels channels cfg.roomAliasPre cfg.server_name seen_channels
  let out := sweepLoop cfg community envs new_channels
  if out.aborted then (mem, out)
  else if new_channels ≠ [] then
    ({ mem with seen_channels := dictUpdate seen_channels new_channels }, out)
  else (mem, out)

/-- Concrete configuration for the scenarios below: alias prefix `br-`,
domain `example.org`, nothing optional configured. -/
def cfgPlain : Config := ⟨"br-", "example.org", false, none, [], none, "@as:hs", []⟩

/-- Concrete configuration with `room_avatar_url` configured. -/
def cfgAvatar : Config :=
  ⟨"br-", "example.org", false, none, [], some "https://logo.png", "@as:hs", []⟩

/-- Channel environment where every platform call succeeds. -/
def envAllOk : ChanEnv :=
  ⟨"!r1:hs", StepRes.ok, StepRes.ok, StepRes.ok, StepRes.ok, StepRes.ok, StepRes.ok,
   AsRes.okRes, StepRes.ok, StepRes.ok, StepRes.ok, StepRes.ok⟩

/-- Channel environment where the appservice invite fails (the pipeline
aborts with "skipping channel") and everything else succeeds. -/
def envAsFails : ChanEnv :=
  ⟨"!r1:hs", StepRes.ok, StepRes.ok, StepRes.ok, StepRes.ok, StepRes.ok, StepRes.ok,
   AsRes.failed, StepRes.ok, StepRes.ok, StepRes.ok, StepRes.ok⟩

/-- Channel environment where `set_room_name` raises. -/
def envNameRaises : ChanEnv :=
  ⟨"!r1:hs", StepRes.ok, StepRes.ok, StepRes.raise, StepRes.ok, StepRes.ok, StepRes.ok,
   AsRes.okRes, StepRes.ok, StepRes.ok, StepRes.ok, StepRes.ok⟩

def chanGeneral : SlackChannel := ⟨"C1", "general", "", false⟩

def chanRandom : SlackChannel := ⟨"C2", "random", "", false⟩

/-- C1 counterexample: a sweep discovering one channel whose appservice
invite fails leaves that channel skipped mid-pipeline, yet the post-sweep
Ledger contains it (so it is not rediscovered later), because line 483
updates the Ledger with all of `new_channels`, not only the successful
ones. -/
theorem ledger_commits_skipped_channel :
    (mirror_slack_channels cfgPlain none (fun _ => envAsFails) [chanGeneral]
        ⟨[], []⟩).2.results = [("C1", ChanResult.skipped)] ∧
    dictGet (mirror_slack_channels cfgPlain none (fun _ => envAsFails) [chanGeneral]
        ⟨[], []⟩).1.seen_channels "C1"
      = some ("general", "#br-general:example.org", "") :=
  ⟨rfl, rfl⟩

/-- C1 amended: when no channel of the sweep raises an uncaught exception
(otherwise the exception propagates and no Ledger write happens at all),
the post-sweep Ledger contains every discovered channel — including
channels whose appservice invite failed and whose pipeline was aborted —
so the commit is unconditional on per-channel success. -/
theorem ledger_commits_all_discovered (cfg : Config) (community : Option String)
    (envs : String → ChanEnv) (channels : List SlackChannel) (mem : Memory)
    (hab : (mirror_slack_channels cfg community envs channels mem).2.aborted = false) :
    ∀ cid info,
      (cid, info) ∈ get_new_channels channels cfg.roomAliasPre cfg.server_name mem.seen_channels →
      (dictGet (mirror_slack_channels cfg community envs channels mem).1.seen_channels cid).isSome := by
  intro cid info hmem
  by_cases habort :
      (sweepLoop cfg community envs
        (get_new_channels channels cfg.roomAliasPre cfg.server_name mem.seen_channels)).aborted = true
  · simp [mirror_slack_channels, habort] at hab
  · have hne : get_new_channels channels cfg.roomAliasPre cfg.server_name mem.seen_channels ≠ [] := by
      intro h
      rw [h] at hmem
      cases hmem
    have heq : mirror_slack_channels cfg community envs channels mem
        = (⟨dictUpdate mem.seen_channels
              (get_new_channels channels cfg.roomAliasPre cfg.server_name mem.seen_channels),
            mem.picard_options⟩,
           sweepLoop cfg community envs
             (get_new_channels channels cfg.roomAliasPre cfg.server_name mem.seen_channels)) := by
      simp [mirror_slack_channels, habort, hne]
    rw [heq]
    rw [dictGet_dictUpdate_isSome]
    exact Or.inr (List.mem_map_of_mem Prod.fst hmem)

/-- C1 amended witness: the concrete skipped channel is committed by the
completed sweep. -/
theorem ledger_commits_all_discovered_witness :
    (dictGet (mirror_slack_channels cfgPlain none (fun _ => envAsFails) [chanGeneral]
        ⟨[], []⟩).1.seen_channels "C1").isSome :=
  ledger_commits_all_discovered cfgPlain none (fun _ => envAsFails) [chanGeneral] ⟨[], []⟩
    rfl "C1" ("general", "#br-general:example.org", "") (by decide)

/-- C4 counterexample: with two discovered channels, a raise in the first
channel's `set_room_name` call terminates the whole sweep: the second
channel is never attempted and no Ledger write happens. -/
theorem channel_failure_aborts_sweep :
    (mirror_slack_channels cfgPlain none
        (fun cid => if cid = "C1" then envNameRaises else envAllOk)
        [chanGeneral, chanRandom] ⟨[], []⟩).2.aborted = true ∧
    (mirror_slack_channels cfgPlain none
        (fun cid => if cid = "C1" then envNameRaises else envAllOk)
        [chanGeneral, chanRandom] ⟨[], []⟩).2.results = [("C1", ChanResult.raised)] ∧
    (mirror_slack_channels cfgPlain none
        (fun cid => if cid = "C1" then envNameRaises else envAllOk)
        [chanGeneral, chanRandom] ⟨[], []⟩).1 = ⟨[], []⟩ :=
  ⟨rfl, rfl, rfl⟩

/-- A channel environment in which no uncaught platform call raises: the
join-policy state events may fail (they are caught and reported) and the
appservice invite may fail (handled by `continue`), but no other call
raises. -/
def benignEnv (e : ChanEnv) : Prop :=
  e.joinBot = StepRes.ok ∧ e.selfRoom = StepRes.ok ∧ e.setName = StepRes.ok ∧
  e.setTopic = StepRes.ok ∧ e.setAvatar = StepRes.ok ∧ e.asInvite ≠ AsRes.raiseEx ∧
  e.powerLevels = StepRes.ok ∧ e.relGroups = StepRes.ok ∧ e.userInvites = StepRes.ok ∧
  e.groupOps = StepRes.ok

instance benignEnvDecidable (e : ChanEnv) : Decidable (benignEnv e) := by
  unfold benignEnv
  infer_instance

theorem processChannel_ne_raised (cfg : Config) (community : Option String)
    (e : ChanEnv) (cid : String) (info : ChanInfo) (hb : benignEnv e) :
    (processChannel cfg community e cid info).1 ≠ ChanResult.raised := by
  obtain ⟨n, a, t⟩ := info
  obtain ⟨h1, h2, h3, h4, h5, h6, h7, h8, h9, h10⟩ := hb
  cases has : e.asInvite with
  | raiseEx => exact absurd has h6
  | failed => simp [processChannel, processResult, h1, h2, h3, h4, h5, h7, h8, h9, h10, has]
  | okRes => simp [processChannel, processResult, h1, h2, h3, h4, h5, h7, h8, h9, h10, has]

/-- C4 amended: channel-failure isolation holds only for the caught failure
modes — join-policy failures and a failed appservice invite do not abort
the processing of subsequent channels — whereas any other raised
platform-call failure terminates the sweep (see the counterexample).  Under
environments whose only failures are of the caught kinds, every discovered
channel is attempted and the sweep does not abort. -/
theorem sweep_continues_on_benign_failures (cfg : Config) (community : Option String)
    (envs : String → ChanEnv) (l : List (String × ChanInfo))
    (hb : ∀ cid, benignEnv (envs cid)) :
    (sweepLoop cfg community envs l).aborted = false ∧
    (sweepLoop cfg community envs l).results.map Prod.fst = l.map Prod.fst := by
  induction l with
  | nil => exact ⟨rfl, rfl⟩
  | cons hd tl ih =>
      obtain ⟨cid, info⟩ := hd
      have hnr := processChannel_ne_raised cfg community (envs cid) cid info (hb cid)
      simp only [sweepLoop]
      rw [if_neg hnr]
      simp [ih.1, ih.2]

/-- C4 amended witness: a two-channel sweep in which both channels' only
failure is the appservice invite processes both channels without
aborting. -/
theorem sweep_continues_on_benign_failures_witness :
    (sweepLoop cfgPlain none (fun _ => envAsFails)
      [("C1", ("general", "#br-general:example.org", "")),
       ("C2", ("random", "#br-random:example.org", ""))]).aborted = false ∧
    (sweepLoop cfgPlain none (fun _ => envAsFails)
      [("C1", ("general", "#br-general:example.org", "")),
       ("C2", ("random", "#br-random:example.org", ""))]).results.map Prod.fst
      = ["C1", "C2"] :=
  sweep_continues_on_benign_failures cfgPlain none (fun _ => envAsFails)
    [("C1", ("general", "#br-general:example.org", "")),
     ("C2", ("random", "#br-random:example.org", ""))]
    (fun _ => (by decide : benignEnv envAsFails))

theorem grpCalls_no_avatar (community : Option String) (env : ChanEnv)
    (ra rid r u : String) : Call.setRoomAvatar r u ∉ grpCalls community env ra rid := by
  unfold grpCalls
  split_ifs <;> simp

theorem inviteCalls_no_avatar (cfg : Config) (community : Option String) (env : ChanEnv)
    (cid ra rid r u : String) :
    Call.setRoomAvatar r u ∉ inviteCalls cfg community env cid ra rid := by
  unfold inviteCalls
  split_ifs <;> simp [List.mem_map, grpCalls_no_avatar]

theorem relCalls_no_avatar (cfg : Config) (community : Option String) (env : ChanEnv)
    (cid ra rid r u : String) :
    Call.setRoomAvatar r u ∉ relCalls cfg community env cid ra rid := by
  unfold relCalls
  split_ifs <;> simp [inviteCalls_no_avatar]

theorem plCalls_no_avatar (cfg : Config) (community : Option String) (env : ChanEnv)
    (cid ra rid r u : String) :
    Call.setRoomAvatar r u ∉ plCalls cfg community env cid ra rid := by
  unfold plCalls
  split_ifs <;> simp [relCalls_no_avatar]

theorem asCalls_no_avatar (cfg : Config) (community : Option String) (env : ChanEnv)
    (cid ra rid r u : String) :
    Call.setRoomAvatar r u ∉ asCalls cfg community env cid ra rid := by
  unfold asCalls
  split_ifs <;> simp [plCalls_no_avatar]

theorem pubCalls_no_avatar (cfg : Config) (env : ChanEnv) (ra rid r u : String) :
    Call.setRoomAvatar r u ∉ pubCalls cfg env ra rid := by
  unfold pubCalls
  split_ifs <;> simp

theorem processCalls_no_avatar_call (cfg : Config) (community : Option String)
    (env : ChanEnv) (cid : String) (info : ChanInfo) (hav : cfg.room_avatar_url = none)
    (r u : String) :
    Call.setRoomAvatar r u ∉ processCalls cfg community env cid info := by
  obtain ⟨n, a, t⟩ := info
  unfold processCalls avatarCalls
  rw [hav]
  split_ifs <;>
    simp [pubCalls_no_avatar, asCalls_no_avatar]

theorem sweepLoop_no_avatar_call (cfg : Config) (community : Option String)
    (envs : String → ChanEnv) (l : List (String × ChanInfo))
    (hav : cfg.room_avatar_url = none) (r u : String) :
    Call.setRoomAvatar r u ∉ (sweepLoop cfg community envs l).calls := by
  induction l with
  | nil => simp [sweepLoop]
  | cons hd tl ih =>
      obtain ⟨cid, info⟩ := hd
      have h1 := processCalls_no_avatar_call cfg community (envs cid) cid info hav r u
      simp only [sweepLoop]
      split
      · simpa [processChannel] using h1
      · simpa [processChannel, List.mem_append, ih] using h1

/-- C2 counterexample: with the stored options exactly as the skip command
writes them (`skip_room_avatar := true`) and `room_avatar_url` configured,
the sweep still issues the avatar-set call for the provisioned room: the
sweep never reads the stored `picard.options`. -/
theorem skip_avatar_flag_not_honored :
    (room_skip_command ["@adm:hs"] none "@adm:hs" "avatar" true).options
      = [("skip_room_avatar", true)] ∧
    Call.setRoomAvatar "!r1:hs" "https://logo.png" ∈
      (mirror_slack_channels cfgAvatar none (fun _ => envAllOk) [chanGeneral]
        ⟨[], [("skip_room_avatar", true)]⟩).2.calls :=
  ⟨rfl, by decide⟩

/-- C2 amended: the sweep does not consult the stored `skip_room_*`
options at all — its resulting Ledger and its call trace are identical for
any two stored `picard.options` values — and the avatar call is governed
solely by the `room_avatar_url` configuration option: when that option is
absent no avatar-set call is ever issued, and when it is present the call
is issued regardless of `skip_room_avatar` (see the counterexample). -/
theorem sweep_ignores_room_options (cfg : Config) (community : Option String)
    (envs : String → ChanEnv) (channels : List SlackChannel)
    (seen : Dict ChanInfo) (o o' : Dict Bool) :
    ((mirror_slack_channels cfg community envs channels ⟨seen, o⟩).1.seen_channels
        = (mirror_slack_channels cfg community envs channels ⟨seen, o'⟩).1.seen_channels ∧
      (mirror_slack_channels cfg community envs channels ⟨seen, o⟩).2
        = (mirror_slack_channels cfg community envs channels ⟨seen, o'⟩).2) ∧
    (cfg.room_avatar_url = none → ∀ r u,
      Call.setRoomAvatar r u ∉
        (mirror_slack_channels cfg community envs channels ⟨seen, o⟩).2.calls) := by
  constructor
  · simp only [mirror_slack_channels]
    split_ifs <;> simp
  · intro hav r u
    have h := sweepLoop_no_avatar_call cfg community envs
      (get_new_channels channels cfg.roomAliasPre cfg.server_name seen) hav r u
    simp only [mirror_slack_channels]
    split_ifs <;> simpa using h

/-- C2 amended witness: with `skip_room_avatar` stored and with empty
options the sweep produces the same Ledger and trace, and under the
avatar-less configuration no avatar call is issued. -/
theorem sweep_ignores_room_options_witness :
    ((mirror_slack_channels cfgPlain none (fun _ => envAllOk) [chanGeneral]
        ⟨[], [("skip_room_avatar", true)]⟩).1.seen_channels
      = (mirror_slack_channels cfgPlain none (fun _ => envAllOk) [chanGeneral]
        ⟨[], []⟩).1.seen_channels ∧
      (mirror_slack_channels cfgPlain none (fun _ => envAllOk) [chanGeneral]
        ⟨[], [("skip_room_avatar", true)]⟩).2
      = (mirror_slack_channels cfgPlain none (fun _ => envAllOk) [chanGeneral]
        ⟨[], []⟩).2) ∧
    Call.setRoomAvatar "!r1:hs" "https://logo.png" ∉
      (mirror_slack_channels cfgPlain none (fun _ => envAllOk) [chanGeneral]
        ⟨[], [("skip_room_avatar", true)]⟩).2.calls :=
  ⟨(sweep_ignores_room_options cfgPlain none (fun _ => envAllOk) [chanGeneral] []
      [("skip_room_avatar", true)] []).1,
   (sweep_ignores_room_options cfgPlain none (fun _ => envAllOk) [chanGeneral] []
      [("skip_room_avatar", true)] []).2 rfl "!r1:hs" "https://logo.png"⟩

/-!
Self-membership (`intent_self_in_room`, picard.py lines 107-130, with
`room_id_if_exists`, lines 82-94, and `is_in_matrix_room`, lines 102-104).
Line 125 of the source reads

    is_in_room = is_in_matrix_room(connector.connection, room_id)

without `await`: `is_in_matrix_room` is a coroutine function, so
`is_in_room` is bound to the *coroutine object*, not to the boolean it
would compute.  A coroutine object is a plain Python object, hence truthy,
so the following `if not is_in_room:` never takes the join branch.  The
embedding makes this explicit: `PyCoro` wraps the value the coroutine
would produce if awaited, and `pyTruthy` is the truthiness of the
coroutine object itself, which is `true` no matter what it wraps. -/

structure PyCoro (α : Type) where
  thunk : α
deriving DecidableEq

/-- Truthiness of an un-awaited coroutine object: always `true`, regardless
of the wrapped result. -/
def pyTruthy {α : Type} : PyCoro α → Bool :=
  fun _ => true

/-- Environment for `intent_self_in_room`: what the Matrix API answers.
`existing` is the result of the alias lookup (`none` embeds the 404),
`createOk`/`createdId` describe `create_room`, `raceId` is the id the
fallback `get_room_id` returns when creation raced, and `joined` is the
joined-rooms list. -/
structure SelfRoomEnv where
  existing : Option String
  createOk : Bool
  createdId : String
  raceId : String
  joined : List String
deriving DecidableEq

/-- Embedding of `joined_rooms` (picard.py lines 97-99). -/
def joined_rooms (env : SelfRoomEnv) : List String :=
  env.joined

/-- Embedding of `is_in_matrix_room` (picard.py lines 102-104). -/
def is_in_matrix_room (env : SelfRoomEnv) (room_id : String) : Bool :=
  decide (room_id ∈ joined_rooms env)

/-- Embedding of `room_id_if_exists` (picard.py lines 82-94): a string
already of room-id form (starting with the `!` character) is returned as
is, otherwise the alias is resolved (404 becomes `None`). -/
def room_id_if_exists (env : SelfRoomEnv) (room_alias : String) : Option String :=
  if room_alias.data.head? = some '!' then some room_alias else env.existing

/-- Embedding of `intent_self_in_room` (picard.py lines 107-130): returns
the room id together with the Matrix calls issued.  In the creation branch
the join is always issued; in the pre-existing branch the source binds
`is_in_room` to the un-awaited coroutine (line 125), so the join is
guarded by the coroutine object's truthiness. -/
def intent_self_in_room (env : SelfRoomEnv) (room : String) : String × List Call :=
  match room_id_if_exists env room with
  | none =>
      let localAlias := ((room.splitOn ":").headD "").drop 1
      if env.createOk then
        (env.createdId, [Call.createRoom localAlias, Call.joinRoom env.createdId])
      else
        (env.raceId, [Call.createRoom localAlias, Call.getRoomId room, Call.joinRoom env.raceId])
  | some room_id =>
      let is_in_room := PyCoro.mk (is_in_matrix_room env room_id)
      if ¬ pyTruthy is_in_room then
        (room_id, [Call.joinRoom room_id])
      else
        (room_id, [])

/-- C3 code_bug evaluation: for a pre-existing room `!r1:hs` that the
connector has not joined (its joined-rooms list is empty),
`intent_self_in_room` returns the room id without issuing any join call,
because line 125 binds `is_in_room` to the un-awaited coroutine object,
which is truthy, so the `if not is_in_room` join branch is dead code.
This contradicts the function's own docstring ("This function should
result in the connector user being in the given room."). -/
theorem intent_self_in_room_missing_join :
    intent_self_in_room ⟨some "!r1:hs", true, "", "", []⟩ "#br-general:example.org"
      = ("!r1:hs", []) ∧
    is_in_matrix_room ⟨some "!r1:hs", true, "", "", []⟩ "!r1:hs" = false ∧
    Call.joinRoom "!r1:hs" ∉
      (intent_self_in_room ⟨some "!r1:hs", true, "", "", []⟩ "#br-general:example.org").2 :=
  ⟨rfl, rfl, by decide⟩
